import Mathlib

/-!
Verification of the tax/budget calculation engine of the Financial-App
repository, shallowly embedded in Lean 4.  Monetary amounts are modelled
as exact rationals (the source uses `Decimal`, which is exact on the
literals appearing in the code).  Python functions that raise become
`Option`-valued definitions (`none` = raise).
-/

/-- A federal/state tax bracket, from `app/api/tax_rates/models.py`
(`TaxBracket`: `min_income`, optional `max_income`, `rate`). -/
structure TaxBracket where
  min_income : ℚ
  max_income : Option ℚ
  rate : ℚ
deriving DecidableEq

/-- The bracket walk of `TaxRateClient._calculate_federal_tax`
(`app/api/tax_rates/client.py`, lines 296-309), applied to a list of
brackets already sorted by `min_income`: at each bracket, stop if the
remaining income is non-positive; otherwise tax
`min(remaining, next.min_income - this.min_income)` at this bracket's
rate (all of the remaining income at the last bracket) and recurse on
what is left. -/
def bracket_walk : List TaxBracket → ℚ → ℚ
  | [], _ => 0
  | [b], remaining =>
      if remaining ≤ 0 then 0 else remaining * b.rate
  | b :: b2 :: bs, remaining =>
      if remaining ≤ 0 then 0
      else
        let bracket_income := min remaining (b2.min_income - b.min_income)
        bracket_income * b.rate + bracket_walk (b2 :: bs) (remaining - bracket_income)

/-- `min_income` strictly increases along the bracket list. -/
def floors_increasing : List TaxBracket → Bool
  | b :: b2 :: bs =>
      decide (b.min_income < b2.min_income) && floors_increasing (b2 :: bs)
  | _ => true

/-- Every rate in the bracket list lies in the interval [0, 1]. -/
def rates_in_unit_interval : List TaxBracket → Bool
  | [] => true
  | b :: bs => (decide (0 ≤ b.rate) && decide (b.rate ≤ 1)) && rates_in_unit_interval bs

/-- The hard-coded 2023 bracket table of
`BudgetCalculator._calculate_federal_tax`
(`app/budget/budget_logic.py`, lines 268-276), as
(lower, upper, rate) triples. -/
def budget_brackets_2023 : List (ℚ × ℚ × ℚ) :=
  [ (0, 11000, 0.10),
    (11000, 44725, 0.12),
    (44725, 95375, 0.22),
    (95375, 182100, 0.24),
    (182100, 231250, 0.32),
    (231250, 578125, 0.35),
    (578125, 999999999, 0.37) ]

/-- The loop of `BudgetCalculator._calculate_federal_tax`
(`app/budget/budget_logic.py`, lines 278-289): for each
(lower, upper, rate) triple, break if the remaining income is
non-positive, otherwise tax `min(remaining, upper - lower)` at `rate`
and subtract it from the remaining income. -/
def budget_bracket_walk : List (ℚ × ℚ × ℚ) → ℚ → ℚ
  | [], _ => 0
  | (lower, upper, rate) :: bs, remaining =>
      if remaining ≤ 0 then 0
      else
        let bracket_income := min remaining (upper - lower)
        bracket_income * rate + budget_bracket_walk bs (remaining - bracket_income)

/-- `BudgetCalculator._calculate_federal_tax(taxable_income)`
(`app/budget/budget_logic.py`, lines 266-289): the bracket walk over the
hard-coded 2023 single-filer table, with no standard deduction applied. -/
def calculate_federal_tax_budget (taxable_income : ℚ) : ℚ :=
  budget_bracket_walk budget_brackets_2023 taxable_income

/-- `BudgetCalculator._convert_to_annual(amount, frequency)`
(`app/budget/budget_logic.py`, lines 145-163).  `none` models the
`ValueError` raised on an unrecognized frequency.  Note the source's
biweekly branch returns the amount unchanged ("the amount is already
annual"). -/
def convert_to_annual_budget (amount : ℚ) (frequency : String) : Option ℚ :=
  if frequency = "weekly" then some (amount * 52)
  else if frequency = "biweekly" then some amount
  else if frequency = "monthly" then some (amount * 12)
  else if frequency = "bimonthly" then some (amount * 24)
  else if frequency = "annually" then some amount
  else none

/-- `convert_to_annual(amount, frequency)` from
`archives/tax_api/tax_api.py` (lines 186-200).  Total: the final `else`
branch defaults to monthly, returning `amount * 12`. -/
def convert_to_annual_archive (amount : ℚ) (frequency : String) : ℚ :=
  if frequency = "weekly" then amount * 52
  else if frequency = "biweekly" then amount * 26
  else if frequency = "monthly" then amount * 12
  else if frequency = "bimonthly" then amount * 24
  else if frequency = "annually" then amount
  else amount * 12

/-- The body of `BudgetCalculator.calculate_taxable_income`
(`app/budget/budget_logic.py`, line 216), as a function of the gross
annual total and the pre-tax deduction total it has just computed:
`taxable_income = gross_annual - deductions_total`, with no clamping. -/
def calculate_taxable_income (gross_annual deductions_total : ℚ) : ℚ :=
  gross_annual - deductions_total

/-- FICA parameters, from `app/api/tax_rates/models.py` (`FICATaxData`). -/
structure FICATaxData where
  year : ℕ
  social_security_rate : ℚ
  social_security_wage_base : ℚ
  medicare_rate : ℚ
  additional_medicare_rate : ℚ
  additional_medicare_threshold : ℚ
deriving DecidableEq

/-- The (Social Security, Medicare) components computed by
`TaxRateClient._calculate_fica_tax` (`app/api/tax_rates/client.py`,
lines 342-357): `ss_tax = min(income, wage_base) * ss_rate`;
`medicare_tax = income * medicare_rate` plus the additional-Medicare
surtax on the excess above the threshold; both doubled for the
"Self-Employed" income type. -/
def fica_components (income : ℚ) (fica_data : FICATaxData) (income_type : String) :
    ℚ × ℚ :=
  let ss_tax := min income fica_data.social_security_wage_base *
    fica_data.social_security_rate
  let medicare_tax := income * fica_data.medicare_rate
  let medicare_tax :=
    if income > fica_data.additional_medicare_threshold then
      medicare_tax +
        (income - fica_data.additional_medicare_threshold) *
          fica_data.additional_medicare_rate
    else medicare_tax
  let ss_tax := if income_type = "Self-Employed" then ss_tax * 2 else ss_tax
  let medicare_tax :=
    if income_type = "Self-Employed" then medicare_tax * 2 else medicare_tax
  (ss_tax, medicare_tax)

/-- `TaxRateClient._calculate_fica_tax(income, fica_data, income_type)`
(`app/api/tax_rates/client.py`, lines 342-363): returns 0.0 for income
types outside {"W2", "Self-Employed"}, otherwise the sum of the two
components. -/
def calculate_fica_tax (income : ℚ) (fica_data : FICATaxData) (income_type : String) :
    ℚ :=
  if income_type = "W2" ∨ income_type = "Self-Employed" then
    (fica_components income fica_data income_type).1 +
      (fica_components income fica_data income_type).2
  else 0

/-- The 2023 record of `FICA_TAX_DATA`
(`app/api/tax_rates/data/fica_tax_data.py`, lines 15-22). -/
def FICA_TAX_DATA_2023 : FICATaxData :=
  { year := 2023
    social_security_rate := 0.062
    social_security_wage_base := 160200
    medicare_rate := 0.0145
    additional_medicare_rate := 0.009
    additional_medicare_threshold := 200000 }

/-- One entry of the federal tax tables of
`app/api/tax_rates/data/federal_tax_data.py`: the per-filing-status
dictionary `{year, brackets, standard_deduction}`. -/
structure FederalTaxData where
  year : ℕ
  brackets : List TaxBracket
  standard_deduction : ℚ
deriving DecidableEq

/-- `FEDERAL_TAX_DATA_2023`
(`app/api/tax_rates/data/federal_tax_data.py`, lines 6-59), keyed by
filing status. -/
def FEDERAL_TAX_DATA_2023 : List (String × FederalTaxData) :=
  [ ("single",
      { year := 2023
        brackets :=
          [ ⟨0, some 11000, 0.10⟩, ⟨11000, some 44725, 0.12⟩,
            ⟨44725, some 95375, 0.22⟩, ⟨95375, some 182100, 0.24⟩,
            ⟨182100, some 231250, 0.32⟩, ⟨231250, some 578125, 0.35⟩,
            ⟨578125, none, 0.37⟩ ]
        standard_deduction := 13850 }),
    ("married_joint",
      { year := 2023
        brackets :=
          [ ⟨0, some 22000, 0.10⟩, ⟨22000, some 89450, 0.12⟩,
            ⟨89450, some 190750, 0.22⟩, ⟨190750, some 364200, 0.24⟩,
            ⟨364200, some 462500, 0.32⟩, ⟨462500, some 693750, 0.35⟩,
            ⟨693750, none, 0.37⟩ ]
        standard_deduction := 27700 }),
    ("married_separate",
      { year := 2023
        brackets :=
          [ ⟨0, some 11000, 0.10⟩, ⟨11000, some 44725, 0.12⟩,
            ⟨44725, some 95375, 0.22⟩, ⟨95375, some 182100, 0.24⟩,
            ⟨182100, some 231250, 0.32⟩, ⟨231250, some 346875, 0.35⟩,
            ⟨346875, none, 0.37⟩ ]
        standard_deduction := 13850 }),
    ("head_of_household",
      { year := 2023
        brackets :=
          [ ⟨0, some 15700, 0.10⟩, ⟨15700, some 59850, 0.12⟩,
            ⟨59850, some 95350, 0.22⟩, ⟨95350, some 182100, 0.24⟩,
            ⟨182100, some 231250, 0.32⟩, ⟨231250, some 578100, 0.35⟩,
            ⟨578100, none, 0.37⟩ ]
        standard_deduction := 20800 }) ]

/-- `FEDERAL_TAX_DATA_2024`
(`app/api/tax_rates/data/federal_tax_data.py`, lines 62-115), keyed by
filing status. -/
def FEDERAL_TAX_DATA_2024 : List (String × FederalTaxData) :=
  [ ("single",
      { year := 2024
        brackets :=
          [ ⟨0, some 11600, 0.10⟩, ⟨11600, some 47150, 0.12⟩,
            ⟨47150, some 100525, 0.22⟩, ⟨100525, some 191950, 0.24⟩,
            ⟨191950, some 243725, 0.32⟩, ⟨243725, some 609350, 0.35⟩,
            ⟨609350, none, 0.37⟩ ]
        standard_deduction := 14600 }),
    ("married_joint",
      { year := 2024
        brackets :=
          [ ⟨0, some 23200, 0.10⟩, ⟨23200, some 94300, 0.12⟩,
            ⟨94300, some 201050, 0.22⟩, ⟨201050, some 383900, 0.24⟩,
            ⟨383900, some 487450, 0.32⟩, ⟨487450, some 731200, 0.35⟩,
            ⟨731200, none, 0.37⟩ ]
        standard_deduction := 29200 }),
    ("married_separate",
      { year := 2024
        brackets :=
          [ ⟨0, some 11600, 0.10⟩, ⟨11600, some 47150, 0.12⟩,
            ⟨47150, some 100525, 0.22⟩, ⟨100525, some 191950, 0.24⟩,
            ⟨191950, some 243725, 0.32⟩, ⟨243725, some 365600, 0.35⟩,
            ⟨365600, none, 0.37⟩ ]
        standard_deduction := 14600 }),
    ("head_of_household",
      { year := 2024
        brackets :=
          [ ⟨0, some 16550, 0.10⟩, ⟨16550, some 63100, 0.12⟩,
            ⟨63100, some 100500, 0.22⟩, ⟨100500, some 191950, 0.24⟩,
            ⟨191950, some 243700, 0.32⟩, ⟨243700, some 609350, 0.35⟩,
            ⟨609350, none, 0.37⟩ ]
        standard_deduction := 21900 }) ]

/-- `FEDERAL_TAX_DATA` (`app/api/tax_rates/data/federal_tax_data.py`,
lines 118-121): the per-year collection. -/
def FEDERAL_TAX_DATA : List (ℕ × List (String × FederalTaxData)) :=
  [ (2023, FEDERAL_TAX_DATA_2023), (2024, FEDERAL_TAX_DATA_2024) ]

/-- Association-list lookup modelling Python dict indexing with `ℕ` keys. -/
def lookup_year {α : Type} : List (ℕ × α) → ℕ → Option α
  | [], _ => none
  | (k, v) :: rest, key => if k = key then some v else lookup_year rest key

/-- Association-list lookup modelling Python dict indexing with string keys. -/
def lookup_status {α : Type} : List (String × α) → String → Option α
  | [], _ => none
  | (k, v) :: rest, key => if k = key then some v else lookup_status rest key

/-- Insertion into a sorted list of naturals, for `sorted(...)`. -/
def insert_sorted (x : ℕ) : List ℕ → List ℕ
  | [] => [x]
  | y :: ys => if x ≤ y then x :: y :: ys else y :: insert_sorted x ys

/-- `sorted(...)` on a list of naturals (insertion sort). -/
def sort_nat (l : List ℕ) : List ℕ := l.foldr insert_sorted []

/-- `get_federal_tax_data(year, filing_status)`
(`app/api/tax_rates/data/federal_tax_data.py`, lines 124-144): if the
year is not a key of `FEDERAL_TAX_DATA`, replace it by the last element
of the sorted key list; if the filing status is not a key of that
year's table, replace it by "single"; return the table entry. -/
def get_federal_tax_data (year : ℕ) (filing_status : String) : Option FederalTaxData :=
  let year :=
    if (lookup_year FEDERAL_TAX_DATA year).isSome then year
    else ((sort_nat (FEDERAL_TAX_DATA.map Prod.fst)).getLast?).getD 0
  match lookup_year FEDERAL_TAX_DATA year with
  | none => none
  | some table =>
      let filing_status :=
        if (lookup_status table filing_status).isSome then filing_status
        else "single"
      lookup_status table filing_status

/-- A budget expense item, from `app/models.py` (`BudgetItem`:
`category`, `name`, `minimum_payment`, `preferred_payment`). -/
structure BudgetItem where
  category : String
  name : String
  minimum_payment : ℚ
  preferred_payment : ℚ
deriving DecidableEq

/-- The `expenses_by_category` dictionary update of
`BudgetCalculator.calculate_budget` (`app/budget/budget_logic.py`,
lines 345-347): initialize a missing category to 0, then add the amount. -/
def add_to_category : List (String × ℚ) → String → ℚ → List (String × ℚ)
  | [], category, amount => [(category, amount)]
  | (c, v) :: rest, category, amount =>
      if c = category then (c, v + amount) :: rest
      else (c, v) :: add_to_category rest category amount

/-- One iteration of the expense loop of
`BudgetCalculator.calculate_budget` (`app/budget/budget_logic.py`,
lines 341-347): `amount = item.minimum_payment`; add it to the running
total and to the item's category bucket. -/
def expenses_step (acc : ℚ × List (String × ℚ)) (item : BudgetItem) :
    ℚ × List (String × ℚ) :=
  let amount := item.minimum_payment
  (acc.1 + amount, add_to_category acc.2 item.category amount)

/-- The expense totals of `BudgetCalculator.calculate_budget`
(`app/budget/budget_logic.py`, lines 338-347): fold the expense loop
over the budget items starting from a zero total and an empty
category map.  The first component is `total_expenses`. -/
def calculate_expenses (items : List BudgetItem) : ℚ × List (String × ℚ) :=
  items.foldl expenses_step (0, [])

/-- Modelled from the spec (§4.6 step 8), for comparison with
`calculate_expenses`: `expenses_total = sum(expense_items.preferred_payment
if set else minimum_payment)`, where a `preferred_payment` is "set" when
it is positive (the model's default is 0.0, and `routes.py` treats
positive `preferred_payment` as set). -/
def spec_expenses_total (items : List BudgetItem) : ℚ :=
  (items.map (fun item =>
    if 0 < item.preferred_payment then item.preferred_payment
    else item.minimum_payment)).sum

/-! ## Helper lemmas -/

lemma rates_in_unit_interval_cons {b : TaxBracket} {bs : List TaxBracket}
    (h : rates_in_unit_interval (b :: bs) = true) :
    (0 ≤ b.rate ∧ b.rate ≤ 1) ∧ rates_in_unit_interval bs = true := by
  simpa [rates_in_unit_interval] using h

lemma floors_increasing_cons {b b2 : TaxBracket} {bs : List TaxBracket}
    (h : floors_increasing (b :: b2 :: bs) = true) :
    b.min_income < b2.min_income ∧ floors_increasing (b2 :: bs) = true := by
  simpa [floors_increasing] using h

/-- The bracket walk never produces a negative tax when the floors
increase and the rates are non-negative. -/
lemma bracket_walk_nonneg : ∀ (bs : List TaxBracket),
    floors_increasing bs = true → rates_in_unit_interval bs = true →
    ∀ x : ℚ, 0 ≤ bracket_walk bs x := by
  intro bs
  induction bs with
  | nil => intro _ _ x; simp [bracket_walk]
  | cons br rest ih =>
    intro hf hr x
    cases rest with
    | nil =>
      simp only [bracket_walk]
      split
      · exact le_refl 0
      · rename_i hx
        push_neg at hx
        exact mul_nonneg hx.le (rates_in_unit_interval_cons hr).1.1
    | cons b2 rest2 =>
      simp only [bracket_walk]
      split
      · exact le_refl 0
      · rename_i hx
        push_neg at hx
        have hspan : 0 < b2.min_income - br.min_income :=
          sub_pos.mpr (floors_increasing_cons hf).1
        refine add_nonneg (mul_nonneg (lt_min hx hspan).le
          (rates_in_unit_interval_cons hr).1.1) ?_
        exact ih (floors_increasing_cons hf).2 (rates_in_unit_interval_cons hr).2 _

/-! ## Claims -/

/-- C1: computing federal tax by the bracket walk of
`BudgetCalculator._calculate_federal_tax` on taxable income $50,000 with
the hard-coded 2023 single-filer bracket table returns exactly
$6,307.50 (= 11000·0.10 + 33725·0.12 + 5275·0.22), with no standard
deduction applied to the already-taxable input. -/
theorem C1_federal_tax_50000_is_6307_50 :
    calculate_federal_tax_budget 50000 = 6307.5
      ∧ (6307.5 : ℚ) = 11000 * 0.10 + 33725 * 0.12 + 5275 * 0.22 := by
  constructor
  · norm_num [calculate_federal_tax_budget, budget_bracket_walk,
      budget_brackets_2023, min_def]
  · norm_num

/-- C2: the progressive bracket walk is monotone: for every bracket
table whose rates lie in [0, 1] and whose floors strictly increase, and
for all incomes 0 ≤ a ≤ b, the computed tax on a is at most the
computed tax on b. -/
theorem C2_progressive_tax_monotone : ∀ (bs : List TaxBracket),
    floors_increasing bs = true → rates_in_unit_interval bs = true →
    ∀ a b : ℚ, 0 ≤ a → a ≤ b → bracket_walk bs a ≤ bracket_walk bs b := by
  intro bs
  induction bs with
  | nil => intro _ _ a b _ _; simp [bracket_walk]
  | cons br rest ih =>
    intro hf hr a b ha hab
    cases rest with
    | nil =>
      rcases le_or_lt a 0 with h0 | h0
      · have hz : bracket_walk [br] a = 0 := by
          simp only [bracket_walk]; rw [if_pos h0]
        rw [hz]
        exact bracket_walk_nonneg _ hf hr b
      · have hb : 0 < b := lt_of_lt_of_le h0 hab
        simp only [bracket_walk]
        rw [if_neg (not_le.mpr h0), if_neg (not_le.mpr hb)]
        exact mul_le_mul_of_nonneg_right hab (rates_in_unit_interval_cons hr).1.1
    | cons b2 rest2 =>
      rcases le_or_lt a 0 with h0 | h0
      · have hz : bracket_walk (br :: b2 :: rest2) a = 0 := by
          simp only [bracket_walk]; rw [if_pos h0]
        rw [hz]
        exact bracket_walk_nonneg _ hf hr b
      · have hb : 0 < b := lt_of_lt_of_le h0 hab
        simp only [bracket_walk]
        rw [if_neg (not_le.mpr h0), if_neg (not_le.mpr hb)]
        have hmin : min a (b2.min_income - br.min_income)
            ≤ min b (b2.min_income - br.min_income) := min_le_min hab (le_refl _)
        have hrem_nonneg : 0 ≤ a - min a (b2.min_income - br.min_income) :=
          sub_nonneg.mpr (min_le_left _ _)
        have hrem_mono : a - min a (b2.min_income - br.min_income)
            ≤ b - min b (b2.min_income - br.min_income) := by
          rcases le_total a (b2.min_income - br.min_income) with hc | hc
          · rw [min_eq_left hc, sub_self]
            exact sub_nonneg.mpr (min_le_left _ _)
          · rw [min_eq_right hc, min_eq_right (le_trans hc hab)]
            exact sub_le_sub_right hab _
        exact add_le_add
          (mul_le_mul_of_nonneg_right hmin (rates_in_unit_interval_cons hr).1.1)
          (ih (floors_increasing_cons hf).2 (rates_in_unit_interval_cons hr).2
            _ _ hrem_nonneg hrem_mono)

theorem C2_progressive_tax_monotone_witness :
    floors_increasing
        [ ⟨0, some 11000, 0.10⟩, ⟨11000, some 44725, 0.12⟩,
          ⟨44725, some 95375, 0.22⟩, ⟨95375, some 182100, 0.24⟩,
          ⟨182100, some 231250, 0.32⟩, ⟨231250, some 578125, 0.35⟩,
          ⟨578125, none, 0.37⟩ ] = true
    ∧ rates_in_unit_interval
        [ ⟨0, some 11000, 0.10⟩, ⟨11000, some 44725, 0.12⟩,
          ⟨44725, some 95375, 0.22⟩, ⟨95375, some 182100, 0.24⟩,
          ⟨182100, some 231250, 0.32⟩, ⟨231250, some 578125, 0.35⟩,
          ⟨578125, none, 0.37⟩ ] = true
    ∧ (0 : ℚ) ≤ 30000 ∧ (30000 : ℚ) ≤ 60000
    ∧ bracket_walk
        [ ⟨0, some 11000, 0.10⟩, ⟨11000, some 44725, 0.12⟩,
          ⟨44725, some 95375, 0.22⟩, ⟨95375, some 182100, 0.24⟩,
          ⟨182100, some 231250, 0.32⟩, ⟨231250, some 578125, 0.35⟩,
          ⟨578125, none, 0.37⟩ ] 30000
      ≤ bracket_walk
        [ ⟨0, some 11000, 0.10⟩, ⟨11000, some 44725, 0.12⟩,
          ⟨44725, some 95375, 0.22⟩, ⟨95375, some 182100, 0.24⟩,
          ⟨182100, some 231250, 0.32⟩, ⟨231250, some 578125, 0.35⟩,
          ⟨578125, none, 0.37⟩ ] 60000 :=
  ⟨by decide, by norm_num [rates_in_unit_interval], by decide, by decide,
    C2_progressive_tax_monotone _ (by decide) (by norm_num [rates_in_unit_interval])
      30000 60000 (by decide) (by decide)⟩

/-- C3: the frequency multipliers of the annual conversion.  In
`BudgetCalculator._convert_to_annual` weekly, monthly, bimonthly and
annually multiply by 52, 12, 24 and 1 as claimed, but the biweekly
branch returns the amount unchanged instead of multiplying by 26
(divergence exhibited at amount 100: the code yields 100, the claimed
multiplier yields 2600); the archived `convert_to_annual` does multiply
biweekly amounts by 26. -/
theorem C3_conversion_multipliers_biweekly_divergence :
    (∀ x : ℚ, convert_to_annual_budget x "weekly" = some (x * 52)
      ∧ convert_to_annual_budget x "monthly" = some (x * 12)
      ∧ convert_to_annual_budget x "bimonthly" = some (x * 24)
      ∧ convert_to_annual_budget x "annually" = some x
      ∧ convert_to_annual_budget x "biweekly" = some x
      ∧ convert_to_annual_archive x "biweekly" = x * 26)
    ∧ convert_to_annual_budget 100 "biweekly" = some 100
    ∧ (100 : ℚ) * 26 = 2600
    ∧ some (100 : ℚ) ≠ some (2600 : ℚ) :=
  ⟨fun _ => ⟨rfl, rfl, rfl, rfl, rfl, rfl⟩, rfl, by norm_num, by norm_num⟩

/-- C4: `BudgetCalculator.calculate_taxable_income` computes
`gross - deductions` with no zero clamp: at gross 1000 and deductions
2000 it produces -1000, where the claimed `max(0, g - d)` is 0. -/
theorem C4_taxable_income_not_clamped :
    (∀ g d : ℚ, calculate_taxable_income g d = g - d)
    ∧ calculate_taxable_income 1000 2000 = -1000
    ∧ max 0 ((1000 : ℚ) - 2000) = 0
    ∧ (-1000 : ℚ) ≠ 0 :=
  ⟨fun _ _ => rfl, by norm_num [calculate_taxable_income], by norm_num, by norm_num⟩

/-- C5: for income treated as W2 and FICA parameters with non-negative
Social Security rate and wage base, the Social Security component of
`TaxRateClient._calculate_fica_tax` equals
`min(income, wage_base) * ss_rate` and is bounded above by
`wage_base * ss_rate`. -/
theorem C5_fica_ss_component_capped (income : ℚ) (fica_data : FICATaxData)
    (hr : 0 ≤ fica_data.social_security_rate)
    (_hw : 0 ≤ fica_data.social_security_wage_base) :
    (fica_components income fica_data "W2").1
        = min income fica_data.social_security_wage_base *
            fica_data.social_security_rate
    ∧ (fica_components income fica_data "W2").1
        ≤ fica_data.social_security_wage_base *
            fica_data.social_security_rate := by
  have h1 : (fica_components income fica_data "W2").1
      = min income fica_data.social_security_wage_base *
          fica_data.social_security_rate := rfl
  exact ⟨h1, h1 ▸ mul_le_mul_of_nonneg_right (min_le_right _ _) hr⟩

theorem C5_fica_ss_component_capped_witness :
    (0 ≤ FICA_TAX_DATA_2023.social_security_rate
      ∧ 0 ≤ FICA_TAX_DATA_2023.social_security_wage_base)
    ∧ ((fica_components 200000 FICA_TAX_DATA_2023 "W2").1
        = min 200000 FICA_TAX_DATA_2023.social_security_wage_base *
            FICA_TAX_DATA_2023.social_security_rate
      ∧ (fica_components 200000 FICA_TAX_DATA_2023 "W2").1
        ≤ FICA_TAX_DATA_2023.social_security_wage_base *
            FICA_TAX_DATA_2023.social_security_rate) :=
  ⟨⟨by norm_num [FICA_TAX_DATA_2023], by norm_num [FICA_TAX_DATA_2023]⟩,
    C5_fica_ss_component_capped 200000 FICA_TAX_DATA_2023
      (by norm_num [FICA_TAX_DATA_2023]) (by norm_num [FICA_TAX_DATA_2023])⟩

/-- C6: `TaxRateClient._calculate_fica_tax` for income type
"Self-Employed" is exactly twice its value for "W2" (both components are
doubled), and is exactly 0 for every income type outside
{"W2", "Self-Employed"}. -/
theorem C6_fica_income_type_dispatch (income : ℚ) (fica_data : FICATaxData) :
    calculate_fica_tax income fica_data "Self-Employed"
      = 2 * calculate_fica_tax income fica_data "W2"
    ∧ ∀ income_type : String, income_type ≠ "W2" →
        income_type ≠ "Self-Employed" →
        calculate_fica_tax income fica_data income_type = 0 := by
  constructor
  · have e1 : calculate_fica_tax income fica_data "Self-Employed"
        = (min income fica_data.social_security_wage_base *
            fica_data.social_security_rate) * 2
          + (if income > fica_data.additional_medicare_threshold then
              income * fica_data.medicare_rate +
                (income - fica_data.additional_medicare_threshold) *
                  fica_data.additional_medicare_rate
            else income * fica_data.medicare_rate) * 2 := rfl
    have e2 : calculate_fica_tax income fica_data "W2"
        = min income fica_data.social_security_wage_base *
            fica_data.social_security_rate
          + (if income > fica_data.additional_medicare_threshold then
              income * fica_data.medicare_rate +
                (income - fica_data.additional_medicare_threshold) *
                  fica_data.additional_medicare_rate
            else income * fica_data.medicare_rate) := rfl
    rw [e1, e2]; ring
  · intro income_type h1 h2
    simp only [calculate_fica_tax]
    rw [if_neg (not_or.mpr ⟨h1, h2⟩)]

theorem C6_fica_income_type_dispatch_witness :
    calculate_fica_tax 250000 FICA_TAX_DATA_2023 "Self-Employed"
      = 2 * calculate_fica_tax 250000 FICA_TAX_DATA_2023 "W2"
    ∧ ("Other" : String) ≠ "W2" ∧ ("Other" : String) ≠ "Self-Employed"
    ∧ calculate_fica_tax 250000 FICA_TAX_DATA_2023 "Other" = 0 :=
  ⟨(C6_fica_income_type_dispatch 250000 FICA_TAX_DATA_2023).1,
    by decide, by decide,
    (C6_fica_income_type_dispatch 250000 FICA_TAX_DATA_2023).2 "Other"
      (by decide) (by decide)⟩

/-- C7: the live `BudgetCalculator._convert_to_annual` raises on the
unrecognized frequency "fortnightly", but the archived
`convert_to_annual` silently defaults it to monthly, returning
100 · 12 = 1200 instead of failing. -/
theorem C7_unknown_frequency_archive_defaults :
    convert_to_annual_budget 100 "fortnightly" = none
    ∧ convert_to_annual_archive 100 "fortnightly" = 100 * 12
    ∧ (100 : ℚ) * 12 = 1200 :=
  ⟨rfl, rfl, by norm_num⟩

/-- If every value in an association list satisfies `P`, so does any
value returned by `lookup_status`. -/
lemma lookup_status_forall {α : Type} (P : α → Prop) :
    ∀ (l : List (String × α)), (∀ p ∈ l, P p.2) →
    ∀ (key : String) (v : α), lookup_status l key = some v → P v := by
  intro l
  induction l with
  | nil => intro _ key v h; simp [lookup_status] at h
  | cons p rest ih =>
    intro hall key v h
    obtain ⟨k, w⟩ := p
    simp only [lookup_status] at h
    by_cases hk : k = key
    · rw [if_pos hk] at h
      obtain rfl : w = v := by simpa using h
      exact hall ⟨k, w⟩ (by simp)
    · rw [if_neg hk] at h
      exact ih (fun q hq => hall q (by simp [hq])) key v h

/-- If every value in an association list satisfies `P`, so does any
value returned by `lookup_year`. -/
lemma lookup_year_forall {α : Type} (P : α → Prop) :
    ∀ (l : List (ℕ × α)), (∀ p ∈ l, P p.2) →
    ∀ (key : ℕ) (v : α), lookup_year l key = some v → P v := by
  intro l
  induction l with
  | nil => intro _ key v h; simp [lookup_year] at h
  | cons p rest ih =>
    intro hall key v h
    obtain ⟨k, w⟩ := p
    simp only [lookup_year] at h
    by_cases hk : k = key
    · rw [if_pos hk] at h
      obtain rfl : w = v := by simpa using h
      exact hall ⟨k, w⟩ (by simp)
    · rw [if_neg hk] at h
      exact ih (fun q hq => hall q (by simp [hq])) key v h

/-- Looking any filing status up in the 2024 table succeeds and yields
an entry whose `year` field is 2024. -/
lemma get_federal_2024_some (filing_status : String) :
    ∃ info, get_federal_tax_data 2024 filing_status = some info
      ∧ info.year = 2024 := by
  have h24 : lookup_year FEDERAL_TAX_DATA 2024 = some FEDERAL_TAX_DATA_2024 := rfl
  have hall : ∀ p ∈ FEDERAL_TAX_DATA_2024, p.2.year = 2024 := by decide
  cases h : lookup_status FEDERAL_TAX_DATA_2024 filing_status with
  | some info =>
    refine ⟨info, ?_,
      lookup_status_forall (fun q => q.year = 2024) _ hall _ _ h⟩
    simp [get_federal_tax_data, h24, h]
  | none =>
    cases h2 : lookup_status FEDERAL_TAX_DATA_2024 "single" with
    | some info =>
      refine ⟨info, ?_,
        lookup_status_forall (fun q => q.year = 2024) _ hall _ _ h2⟩
      simp [get_federal_tax_data, h24, h, h2]
    | none => exact absurd h2 (by decide)

/-- C8: for a requested year absent from `FEDERAL_TAX_DATA`,
`get_federal_tax_data` does not fail: it returns the table of the most
recent available year (2024, the last element of the sorted key list),
and the returned entry's `year` field reports 2024 as the year actually
used. -/
theorem C8_missing_year_falls_back (year : ℕ) (filing_status : String)
    (hmiss : lookup_year FEDERAL_TAX_DATA year = none) :
    get_federal_tax_data year filing_status
        = get_federal_tax_data 2024 filing_status
    ∧ ∃ info, get_federal_tax_data year filing_status = some info
        ∧ info.year = 2024 := by
  have h24 : lookup_year FEDERAL_TAX_DATA 2024 = some FEDERAL_TAX_DATA_2024 := rfl
  have hfall : ((sort_nat (FEDERAL_TAX_DATA.map Prod.fst)).getLast?).getD 0 = 2024 :=
    rfl
  have heq : get_federal_tax_data year filing_status
      = get_federal_tax_data 2024 filing_status := by
    simp [get_federal_tax_data, hmiss, hfall, h24]
  exact ⟨heq, heq ▸ get_federal_2024_some filing_status⟩

theorem C8_missing_year_falls_back_witness :
    lookup_year FEDERAL_TAX_DATA 2026 = none
    ∧ (get_federal_tax_data 2026 "single" = get_federal_tax_data 2024 "single"
      ∧ ∃ info, get_federal_tax_data 2026 "single" = some info
          ∧ info.year = 2024) :=
  ⟨rfl, C8_missing_year_falls_back 2026 "single" rfl⟩

/-- C9 counterexample: for an item with minimum_payment 100 and
preferred_payment 150 (set), the expense total of
`BudgetCalculator.calculate_budget` is 100 — the minimum payment — not
the 150 the claim's preferred-if-set rule produces. -/
theorem C9_expenses_preferred_counterexample :
    (calculate_expenses [⟨"Housing", "Rent", 100, 150⟩]).1 = 100
    ∧ spec_expenses_total [⟨"Housing", "Rent", 100, 150⟩] = 150
    ∧ (calculate_expenses [⟨"Housing", "Rent", 100, 150⟩]).1
        ≠ spec_expenses_total [⟨"Housing", "Rent", 100, 150⟩] := by
  refine ⟨?_, ?_, ?_⟩
  · norm_num [calculate_expenses, expenses_step, add_to_category]
  · norm_num [spec_expenses_total]
  · norm_num [calculate_expenses, expenses_step, add_to_category,
      spec_expenses_total]

/-- C9 amended: the budget's total expenses equals the sum over items of
`minimum_payment`; an item with a `preferred_payment` set still
contributes its `minimum_payment` (the field is ignored by
`calculate_budget`). -/
theorem C9_expenses_total_is_minimum_sum (items : List BudgetItem) :
    (calculate_expenses items).1
      = (items.map BudgetItem.minimum_payment).sum := by
  suffices h : ∀ acc : ℚ × List (String × ℚ),
      (items.foldl expenses_step acc).1
        = acc.1 + (items.map BudgetItem.minimum_payment).sum by
    simpa [calculate_expenses] using h (0, [])
  induction items with
  | nil => intro acc; simp
  | cons item rest ih =>
    intro acc
    simp only [List.foldl_cons, List.map_cons, List.sum_cons, ih, expenses_step]
    ring

/-- C10: for a year present in `FEDERAL_TAX_DATA`, calling
`get_federal_tax_data` with a filing status that is not a key of that
year's table does not fail: it silently substitutes "single" and
returns the single-filer entry of that year's table. -/
theorem C10_unknown_filing_status_single (year : ℕ)
    (table : List (String × FederalTaxData)) (filing_status : String)
    (hyear : lookup_year FEDERAL_TAX_DATA year = some table)
    (hmiss : lookup_status table filing_status = none) :
    get_federal_tax_data year filing_status = lookup_status table "single"
    ∧ (lookup_status table "single").isSome = true := by
  constructor
  · simp [get_federal_tax_data, hyear, hmiss]
  · exact lookup_year_forall (fun t => (lookup_status t "single").isSome = true)
      _ (by decide) _ _ hyear

theorem C10_unknown_filing_status_single_witness :
    lookup_year FEDERAL_TAX_DATA 2023 = some FEDERAL_TAX_DATA_2023
    ∧ lookup_status FEDERAL_TAX_DATA_2023 "qualifying_widow" = none
    ∧ (get_federal_tax_data 2023 "qualifying_widow"
        = lookup_status FEDERAL_TAX_DATA_2023 "single"
      ∧ (lookup_status FEDERAL_TAX_DATA_2023 "single").isSome = true) :=
  ⟨rfl, rfl, C10_unknown_filing_status_single 2023 FEDERAL_TAX_DATA_2023
    "qualifying_widow" rfl rfl⟩
